import Mathlib

/-!
Verification of the specification of `mamajek.py` against a shallow
embedding of its code.

The program carries a fixed stellar reference table (parallel lists) and a
single algorithmic routine `interpolate_in`, which locates the table row
nearest a query value, selects a local index window with `np.linspace`,
sorts the windowed points by the source value and evaluates a cubic spline
(`scipy.interpolate.CubicSpline`, whose default boundary condition is the
not-a-knot condition) at the query.  All quantities are embedded as exact
rationals; the real-valued post-processing formulas (base-10 logarithms)
are embedded over `Real`.
-/

set_option maxRecDepth 100000

attribute [local semireducible] Rat.add Rat.sub Rat.mul Rat.inv Rat.ofScientific

/-- The `sptype` list of spectral-type labels, transcribed verbatim from src/mamajek.py lines 57-65. -/
def sptype : List String :=
  ["O3V", "O4V", "O5V", "O5.5V", "O6V", "O6.5V", "O7V", "O7.5V", "O8V", "O8.5V",
   "O9V", "O9.5V", "B0V", "B0.5V", "B1V", "B1.5V", "B2V", "B2.5V", "B3V", "B4V",
   "B5V", "B6V", "B7V", "B8V", "B9V", "B9.5V", "A0V", "A1V", "A2V", "A3V",
   "A4V", "A5V", "A6V", "A7V", "A8V", "A9V", "F0V", "F1V", "F2V", "F3V",
   "F4V", "F5V", "F6V", "F7V", "F8V", "F9V", "F9.5V", "G0V", "G1V", "G2V",
   "G3V", "G4V", "G5V", "G6V", "G7V", "G8V", "G9V", "K0V", "K1V", "K2V",
   "K3V", "K4V", "K5V", "K6V", "K7V", "K8V", "K9V", "M0V", "M0.5V", "M1V",
   "M1.5V", "M2V", "M2.5V", "M3V", "M3.5V", "M4V", "M4.5V", "M5V", "M5.5V", "M6V",
   "M6.5V", "M7V", "M7.5V", "M8V", "M8.5V", "M9V"]

/-- The `Teff` column, transcribed verbatim from src/mamajek.py lines 67-75. -/
def Teff : List ℚ :=
  [44900, 42900, 41400, 40500, 39500, 38300, 37100, 36100, 35100, 34300,
   33300, 31900, 31400, 29000, 26000, 24500, 20600, 18500, 17000, 16400,
   15700, 14500, 14000, 12300, 10700, 10400, 9700, 9300, 8800, 8600,
   8250, 8100, 7910, 7760, 7590, 7400, 7220, 7020, 6820, 6750,
   6670, 6550, 6350, 6280, 6180, 6050, 5990, 5930, 5860, 5770,
   5720, 5680, 5660, 5600, 5550, 5480, 5380, 5270, 5170, 5100,
   4830, 4600, 4440, 4300, 4100, 3990, 3930, 3850, 3770, 3660,
   3620, 3560, 3470, 3430, 3270, 3210, 3110, 3060, 2930, 2810,
   2740, 2680, 2630, 2570, 2420, 2380]

/-- The `logTeff` column, transcribed verbatim from src/mamajek.py lines 77-85. -/
def logTeff : List ℚ :=
  [4.652, 4.632, 4.617, 4.607, 4.597, 4.583, 4.569, 4.558, 4.545, 4.535,
   4.522, 4.504, 4.497, 4.462, 4.415, 4.389, 4.314, 4.267, 4.230, 4.215,
   4.196, 4.161, 4.146, 4.090, 4.029, 4.017, 3.987, 3.968, 3.944, 3.934,
   3.917, 3.908, 3.898, 3.890, 3.880, 3.869, 3.859, 3.846, 3.834, 3.829,
   3.824, 3.816, 3.803, 3.798, 3.791, 3.782, 3.777, 3.773, 3.768, 3.761,
   3.757, 3.754, 3.753, 3.748, 3.744, 3.739, 3.731, 3.723, 3.713, 3.708,
   3.684, 3.663, 3.647, 3.633, 3.613, 3.601, 3.594, 3.585, 3.576, 3.563,
   3.559, 3.551, 3.540, 3.535, 3.515, 3.507, 3.493, 3.486, 3.467, 3.449,
   3.438, 3.428, 3.420, 3.410, 3.384, 3.377]

/-- The `logL` column, transcribed verbatim from src/mamajek.py lines 97-105. -/
def logL : List ℚ :=
  [5.82, 5.65, 5.54, 5.44, 5.36, 5.27, 5.18, 5.09, 4.99, 4.91,
   4.82, 4.72, 4.65, 4.43, 4.13, 3.91, 3.43, 3.20, 2.99, 2.89,
   2.77, 2.57, 2.48, 2.19, 1.86, 1.80, 1.58, 1.49, 1.38, 1.23,
   1.13, 1.09, 1.05, 1.00, 0.96, 0.92, 0.86, 0.79, 0.71, 0.67,
   0.62, 0.56, 0.43, 0.39, 0.29, 0.22, 0.18, 0.13, 0.08, 0.01,
   -0.01, -0.04, -0.05, -0.10, -0.13, -0.17, -0.26, -0.34, -0.39, -0.43,
   -0.55, -0.69, -0.76, -0.86, -1.00, -1.06, -1.10, -1.16, -1.27, -1.39,
   -1.44, -1.54, -1.64, -1.79, -2.03, -2.14, -2.40, -2.52, -2.79, -2.98,
   -3.10, -3.19, -3.24, -3.28, -3.47, -3.52]

/-- The `Mbol` column, transcribed verbatim from src/mamajek.py lines 107-115. -/
def Mbol : List ℚ :=
  [-9.81, -9.39, -9.11, -8.87, -8.67, -8.44, -8.21, -7.98, -7.74, -7.53,
   -7.31, -7.06, -6.89, -6.33, -5.58, -5.04, -3.83, -3.27, -2.74, -2.49,
   -2.19, -1.68, -1.45, -0.73, 0.08, 0.24, 0.78, 1.02, 1.28, 1.66,
   1.92, 2.01, 2.13, 2.24, 2.34, 2.45, 2.58, 2.77, 2.97, 3.07,
   3.19, 3.35, 3.66, 3.77, 4.01, 4.20, 4.29, 4.42, 4.55, 4.72,
   4.78, 4.83, 4.88, 4.99, 5.08, 5.16, 5.39, 5.59, 5.72, 5.81,
   6.13, 6.46, 6.65, 6.89, 7.23, 7.40, 7.49, 7.65, 7.91, 8.22,
   8.35, 8.59, 8.82, 9.21, 9.82, 10.10, 10.74, 11.04, 11.72, 12.19,
   12.48, 12.71, 12.84, 12.95, 13.42, 13.54]

/-- The `Rsun` column, transcribed verbatim from src/mamajek.py lines 117-125. -/
def Rsun : List ℚ :=
  [13.43, 12.13, 11.45, 10.71, 10.27, 9.82, 9.42, 8.95, 8.47, 8.06,
   7.72, 7.50, 7.16, 6.48, 5.71, 5.02, 4.06, 3.89, 3.61, 3.46,
   3.36, 3.27, 2.94, 2.86, 2.49, 2.45, 2.19, 2.14, 2.12, 1.86,
   1.79, 1.78, 1.77, 1.75, 1.75, 1.75, 1.73, 1.68, 1.62, 1.58,
   1.53, 1.47, 1.36, 1.32, 1.22, 1.17, 1.14, 1.10, 1.06, 1.01,
   1.00, 0.99, 0.98, 0.95, 0.93, 0.91, 0.85, 0.81, 0.80, 0.78,
   0.76, 0.71, 0.70, 0.67, 0.63, 0.61, 0.61, 0.59, 0.54, 0.50,
   0.48, 0.45, 0.42, 0.36, 0.30, 0.27, 0.22, 0.20, 0.16, 0.14,
   0.13, 0.12, 0.12, 0.11, 0.10, 0.10]

/-- The `Mv` column, transcribed verbatim from src/mamajek.py lines 127-135. -/
def Mv : List ℚ :=
  [-5.80, -5.50, -5.35, -5.20, -5.10, -4.95, -4.80, -4.65, -4.50, -4.35,
   -4.20, -4.05, -3.90, -3.50, -3.00, -2.60, -1.80, -1.50, -1.20, -1.00,
   -0.85, -0.55, -0.40, 0.00, 0.50, 0.60, 0.99, 1.16, 1.35, 1.70,
   1.94, 2.01, 2.12, 2.23, 2.32, 2.43, 2.57, 2.76, 2.97, 3.08,
   3.20, 3.37, 3.69, 3.80, 4.05, 4.25, 4.35, 4.48, 4.62, 4.80,
   4.87, 4.93, 4.98, 5.10, 5.20, 5.30, 5.55, 5.78, 5.95, 6.07,
   6.50, 6.98, 7.28, 7.64, 8.16, 8.43, 8.56, 8.80, 9.20, 9.64,
   9.85, 10.21, 10.61, 11.15, 12.10, 12.61, 13.58, 14.15, 15.30, 16.32,
   17.10, 17.70, 18.16, 18.60, 19.20, 19.40]

/-- The `BV` column, transcribed verbatim from src/mamajek.py lines 137-145. -/
def BV : List ℚ :=
  [-0.330, -0.326, -0.323, -0.322, -0.321, -0.319, -0.318, -0.317, -0.315, -0.314,
   -0.312, -0.307, -0.301, -0.289, -0.278, -0.252, -0.215, -0.198, -0.178, -0.165,
   -0.156, -0.140, -0.128, -0.109, -0.070, -0.050, 0.000, 0.035, 0.070, 0.100,
   0.140, 0.160, 0.185, 0.210, 0.250, 0.270, 0.295, 0.330, 0.370, 0.390,
   0.410, 0.440, 0.486, 0.500, 0.530, 0.560, 0.580, 0.595, 0.622, 0.650,
   0.660, 0.670, 0.680, 0.700, 0.710, 0.730, 0.775, 0.816, 0.857, 0.884,
   0.990, 1.090, 1.150, 1.240, 1.340, 1.363, 1.400, 1.420, 1.445, 1.485,
   1.495, 1.505, 1.522, 1.530, 1.600, 1.650, 1.690, 1.830, 1.940, 2.010,
   2.070, 2.120, 2.140, 2.150, 2.160, 2.170]

/-- The `Msun` column, transcribed verbatim from src/mamajek.py lines 147-155. -/
def Msun : List ℚ :=
  [59.00, 48.00, 43.00, 38.00, 35.00, 31.00, 28.00, 26.00, 23.60, 21.90,
   20.20, 18.70, 17.70, 14.80, 11.80, 9.90, 7.30, 6.10, 5.40, 5.10,
   4.70, 4.30, 3.92, 3.38, 2.75, 2.68, 2.18, 2.05, 1.98, 1.86,
   1.93, 1.88, 1.83, 1.77, 1.81, 1.75, 1.61, 1.50, 1.46, 1.44,
   1.38, 1.33, 1.25, 1.21, 1.18, 1.13, 1.08, 1.06, 1.03, 1.00,
   0.99, 0.98, 0.98, 0.97, 0.95, 0.94, 0.90, 0.88, 0.86, 0.82,
   0.78, 0.73, 0.70, 0.69, 0.64, 0.62, 0.59, 0.57, 0.54, 0.50,
   0.47, 0.44, 0.40, 0.37, 0.27, 0.23, 0.18, 0.16, 0.12, 0.10,
   0.09, 0.09, 0.09, 0.09, 0.08, 0.08]

/-- Absolute value on `ℚ`, written as an executable conditional (embeds
`np.abs`).  Agrees with `|·|`, see `qabs_eq_abs`. -/
def qabs (a : ℚ) : ℚ := if a < 0 then -a else a

/-- Minimum of two rationals as an executable conditional.  Agrees with
`min`, see `qmin_eq_min`. -/
def qmin (a b : ℚ) : ℚ := if a ≤ b then a else b

/-- Minimum of the absolute differences between `q` and the entries of a list.
Embeds the intermediate array of `np.abs(valor - par_prim)` (src/mamajek.py
line 161) together with taking its minimum. -/
def minAbs (q : ℚ) : List ℚ → ℚ
  | [] => 0
  | [x] => qabs (q - x)
  | x :: y :: t => qmin (qabs (q - x)) (minAbs q (y :: t))

/-- Index of the entry of the list nearest to `q`: the lowest index attaining
the minimum absolute difference.  Embeds `(np.abs(valor - par_prim)).argmin()`
(src/mamajek.py line 161); `numpy.argmin` returns the first occurrence of the
minimum, which this recursion reproduces (the head is kept unless the tail
attains a strictly smaller difference). -/
def argminAbs (q : ℚ) : List ℚ → ℕ
  | [] => 0
  | [_] => 0
  | x :: y :: t => if minAbs q (y :: t) < qabs (q - x) then argminAbs q (y :: t) + 1 else 0

/-- Embeds `np.linspace(a, b, n, dtype=int)` for natural-number endpoints with
`a ≤ b`: the `n` evenly spaced values `a + k·(b−a)/(n−1)`, truncated toward
zero by the `int` cast.  Since every argument is a nonnegative integer the
truncation is exactly natural-number division.  (Used in src/mamajek.py lines
163, 165, 167; there every intermediate float is far enough from the nearest
integer, or is an exact integer, that the float computation truncates to the
same value.) -/
def linspaceInt (a b n : ℕ) : List ℕ :=
  (List.range n).map (fun k => a + k * (b - a) / (n - 1))

/-- The window of table indices chosen by `interpolate_in` around the nearest
index `idx`, for a source array of length `n` (src/mamajek.py lines 160-167,
with `margin = 5`):
  - if `idx ≥ margin` and `idx ≤ n − margin`: `np.linspace(idx−5, idx+5, 11)`;
  - else if `idx < margin`: `np.linspace(0, idx+5, idx+5)` — note the point
    count is `idx+5`, not `idx+6`;
  - else if `idx > n − margin`: `np.linspace(idx−5, n−1, n−idx+5)`.
The three guards are translated over `ℤ` so that `n − 5` never truncates; the
final `[]` case is unreachable (the three guards cover every `idx`). -/
def windowIdx (n idx : ℕ) : List ℕ :=
  if 5 ≤ idx ∧ (idx : ℤ) ≤ (n : ℤ) - 5 then linspaceInt (idx - 5) (idx + 5) 11
  else if idx < 5 then linspaceInt 0 (idx + 5) (idx + 5)
  else if (n : ℤ) - 5 < (idx : ℤ) then linspaceInt (idx - 5) (n - 1) (n - idx + 5)
  else []

/-- Boolean test that a list of rationals is strictly increasing.  Embeds the
validation performed by `scipy.interpolate.CubicSpline`, which rejects its
abscissa array with a `ValueError` unless it is strictly increasing. -/
def strictIncrQ : List ℚ → Bool
  | [] => true
  | [_] => true
  | x :: y :: t => decide (x < y) && strictIncrQ (y :: t)

/-- Insert a position into a list of positions sorted by key, keeping it
before any later position with an equal or larger key. -/
def insertByKey (key : ℕ → ℚ) (i : ℕ) : List ℕ → List ℕ
  | [] => [i]
  | j :: rest => if key i ≤ key j then i :: j :: rest else j :: insertByKey key i rest

/-- Stable insertion sort of a list of positions by key. -/
def argsortAux (key : ℕ → ℚ) : List ℕ → List ℕ
  | [] => []
  | i :: rest => insertByKey key i (argsortAux key rest)

/-- Embeds `prim.argsort()` (src/mamajek.py line 169): the list of positions
of `xs` ordered so that the corresponding values are ascending.  For distinct
values (the only case in which the subsequent `CubicSpline` call succeeds)
the ordering permutation is unique, so a stable sort reproduces
`numpy.argsort`. -/
def argsortQ (xs : List ℚ) : List ℕ :=
  argsortAux (fun i => xs.getD i 0) (List.range xs.length)

/-- One step of Gaussian elimination: subtract the multiple of the pivot row
`p` that clears the leading entry of `r`, and drop that leading column. -/
def elimFirst (p r : List ℚ) : List ℚ :=
  match p, r with
  | p0 :: ps, r0 :: rs => List.zipWith (fun a b => b - r0 / p0 * a) ps rs
  | _, _ => []

/-- Find the first row whose leading entry is nonzero; return it and the
remaining rows in their original order. -/
def findPivotRow : List (List ℚ) → Option (List ℚ × List (List ℚ))
  | [] => none
  | r :: rs =>
    if r.headD 0 ≠ 0 then some (r, rs)
    else
      match findPivotRow rs with
      | some (p, rest) => some (p, r :: rest)
      | none => none

/-- Forward elimination on an augmented matrix: returns the successive pivot
rows (each one column shorter than the previous), or `none` if the matrix is
singular. -/
def gaussAux : ℕ → List (List ℚ) → Option (List (List ℚ))
  | 0, _ => some []
  | n + 1, rows =>
    match findPivotRow rows with
    | none => none
    | some (p, rest) =>
      match gaussAux n (rest.map (elimFirst p)) with
      | none => none
      | some tri => some (p :: tri)

/-- Back substitution over the triangular rows produced by `gaussAux`. -/
def backSub : List (List ℚ) → List ℚ
  | [] => []
  | r :: rs =>
    let xs := backSub rs
    let p0 := r.headD 0
    let rest := r.tail
    let rhs := rest.getLastD 0
    let coeffs := rest.dropLast
    ((rhs - (List.zipWith (fun c x => c * x) coeffs xs).sum) / p0) :: xs

/-- Exact solver for a small linear system given as augmented rows. -/
def gaussSolve (rows : List (List ℚ)) : Option (List ℚ) :=
  (gaussAux rows.length rows).map backSub

/-- Boundary conditions for an interpolating cubic spline.  `notAKnot` is the
documented default of `scipy.interpolate.CubicSpline` (the third derivative is
continuous across the second and the second-to-last knot); `natural` requires
a vanishing second derivative at both end knots. -/
inductive SplineBC
  | natural
  | notAKnot

/-- A dense row of length `n` given by a coefficient function, with the
right-hand side appended (augmented-matrix format). -/
def rowOf (n : ℕ) (f : ℕ → ℚ) (rhs : ℚ) : List ℚ :=
  ((List.range n).map f) ++ [rhs]

/-- The linear system for the knot second derivatives ("moments") `M_i` of the
interpolating cubic spline through `(xs i, ys i)`:
  - interior equations, `i = 1, …, n−2` (multiplied through by 6):
    `h_{i−1}·M_{i−1} + 2(h_{i−1}+h_i)·M_i + h_i·M_{i+1}
       = 6((y_{i+1}−y_i)/h_i − (y_i−y_{i−1})/h_{i−1})`;
  - `natural`: `M_0 = 0` and `M_{n−1} = 0`;
  - `notAKnot`: continuity of the third derivative `(M_{i+1}−M_i)/h_i` across
    the second and second-to-last knots:
    `−h_1·M_0 + (h_0+h_1)·M_1 − h_0·M_2 = 0` and
    `−h_{n−2}·M_{n−3} + (h_{n−3}+h_{n−2})·M_{n−2} − h_{n−3}·M_{n−1} = 0`.
For `n ≥ 4` distinct knots this system is nonsingular and its solution yields
the unique C² piecewise cubic interpolant with the stated boundary condition,
which is exactly the function `scipy.interpolate.CubicSpline` constructs. -/
def momentRows (bc : SplineBC) (xs ys : List ℚ) : List (List ℚ) :=
  let n := xs.length
  let h := fun i => xs.getD (i + 1) 0 - xs.getD i 0
  let y := fun i => ys.getD i 0
  let firstRow :=
    match bc with
    | .natural => rowOf n (fun j => if j = 0 then 1 else 0) 0
    | .notAKnot =>
        rowOf n (fun j =>
          if j = 0 then -(h 1) else if j = 1 then h 0 + h 1
          else if j = 2 then -(h 0) else 0) 0
  let lastRow :=
    match bc with
    | .natural => rowOf n (fun j => if j = n - 1 then 1 else 0) 0
    | .notAKnot =>
        rowOf n (fun j =>
          if j = n - 3 then -(h (n - 2)) else if j = n - 2 then h (n - 3) + h (n - 2)
          else if j = n - 1 then -(h (n - 3)) else 0) 0
  let interior := fun i =>
    rowOf n (fun j =>
        if j + 1 = i then h (i - 1) else if j = i then 2 * (h (i - 1) + h i)
        else if j = i + 1 then h i else 0)
      (6 * ((y (i + 1) - y i) / h i - (y i - y (i - 1)) / h (i - 1)))
  firstRow :: ((List.range (n - 2)).map (fun k => interior (k + 1))) ++ [lastRow]

/-- The knot second derivatives of the interpolating cubic spline. -/
def splineMoments (bc : SplineBC) (xs ys : List ℚ) : Option (List ℚ) :=
  gaussSolve (momentRows bc xs ys)

/-- Index of the polynomial piece on which a cubic spline with knots `xs` is
evaluated at `t`: the greatest `i ≤ n−2` with `xs i ≤ t`, and `0` for
`t < xs 1`.  Points outside the knot range are extrapolated with the first or
last piece, as `scipy.interpolate.CubicSpline` does by default. -/
def intervalIdx (xs : List ℚ) (t : ℚ) : ℕ :=
  ((xs.dropLast.tail).takeWhile (fun a => decide (a ≤ t))).length

/-- Evaluation at `t` of the piecewise cubic with knots `xs`, values `ys` and
knot second derivatives `Ms`, on the piece `[x_i, x_{i+1}]` selected by
`intervalIdx`:
`S(t) = M_i(x_{i+1}−t)³/(6h) + M_{i+1}(t−x_i)³/(6h)
      + (y_i − M_i h²/6)(x_{i+1}−t)/h + (y_{i+1} − M_{i+1} h²/6)(t−x_i)/h`. -/
def evalWithMoments (xs ys Ms : List ℚ) (t : ℚ) : ℚ :=
  let i := intervalIdx xs t
  let x0 := xs.getD i 0
  let x1 := xs.getD (i + 1) 0
  let y0 := ys.getD i 0
  let y1 := ys.getD (i + 1) 0
  let M0 := Ms.getD i 0
  let M1 := Ms.getD (i + 1) 0
  let hh := x1 - x0
  M0 * (x1 - t) ^ 3 / (6 * hh) + M1 * (t - x0) ^ 3 / (6 * hh)
    + (y0 - M0 * hh ^ 2 / 6) * (x1 - t) / hh
    + (y1 - M1 * hh ^ 2 / 6) * (t - x0) / hh

/-- Embeds `scipy.interpolate.CubicSpline(xs, ys)(t)` with boundary condition
`bc` over exact rationals.  Returns `none` exactly when the constructor would
raise: mismatched lengths, an abscissa array that is not strictly increasing,
or fewer than 4 points (`scipy` special-cases 2 and 3 points; every window
produced by `interpolate_in` has at least 5 points, so the guard is never the
deciding factor on reachable inputs). -/
def CubicSplineEval (bc : SplineBC) (xs ys : List ℚ) (t : ℚ) : Option ℚ :=
  if xs.length = ys.length ∧ 4 ≤ xs.length ∧ strictIncrQ xs = true then
    (splineMoments bc xs ys).map (fun Ms => evalWithMoments xs ys Ms t)
  else none

/-- Shallow embedding of `interpolate_in(par_prim, par_seg, valor)`
(src/mamajek.py lines 157-171), translated line by line:
`idx` is the nearest index (line 161), `idx_peq` the window of indices
(lines 162-167), `prim`/`seg` the windowed sub-arrays (line 168, `none` on an
out-of-bounds fancy index, which `numpy` rejects with an `IndexError`),
`srt` the sorting permutation (line 169), and the value is the not-a-knot
cubic spline — the `scipy` default — through the sorted points, evaluated at
`valor` (lines 170-171).  The returned index is the one from line 161. -/
def interpolate_in (par_prim par_seg : List ℚ) (valor : ℚ) : Option ℚ × ℕ :=
  let idx := argminAbs valor par_prim
  let idx_peq := windowIdx par_prim.length idx
  let value : Option ℚ := do
    let prim ← idx_peq.mapM (fun i => par_prim[i]?)
    let seg ← idx_peq.mapM (fun i => par_seg[i]?)
    let srt := argsortQ prim
    CubicSplineEval SplineBC.notAKnot (srt.map (fun i => prim.getD i 0))
      (srt.map (fun i => seg.getD i 0)) valor
  (value, idx)

/-- Modelled from the spec, steps 1-6 of the interpolation contract
(spec section 4.2), with the boundary condition of step 5 corrected to the
not-a-knot condition actually used by the code: find the nearest index, choose
the local window, extract the windowed sub-arrays, sort them by ascending
source value applying the same permutation to both, fit the spline and
evaluate it at the query value. -/
def notAKnotSplineValue (source_array target_array : List ℚ) (query_value : ℚ) : Option ℚ :=
  let nearest_index := argminAbs query_value source_array
  let window := windowIdx source_array.length nearest_index
  do
    let src ← window.mapM (fun i => source_array[i]?)
    let tgt ← window.mapM (fun i => target_array[i]?)
    let perm := argsortQ src
    CubicSplineEval SplineBC.notAKnot (perm.map (fun i => src.getD i 0))
      (perm.map (fun i => tgt.getD i 0)) query_value

/-- Modelled from the spec, steps 1-6 of the interpolation contract
(spec section 4.2) exactly as written there: as `notAKnotSplineValue`, but
step 5 fits the natural cubic spline (vanishing second derivative at both end
knots) through the sorted window points. -/
def naturalSplineValue (source_array target_array : List ℚ) (query_value : ℚ) : Option ℚ :=
  let nearest_index := argminAbs query_value source_array
  let window := windowIdx source_array.length nearest_index
  do
    let src ← window.mapM (fun i => source_array[i]?)
    let tgt ← window.mapM (fun i => target_array[i]?)
    let perm := argsortQ src
    CubicSplineEval SplineBC.natural (perm.map (fun i => src.getD i 0))
      (perm.map (fun i => tgt.getD i 0)) query_value

/-- The `convers` dictionary (src/mamajek.py line 175), as a lookup from the
quantity name to its column; an unknown name maps to the empty list (the
program would raise a `KeyError` there, but no claim depends on that case). -/
def convers : String → List ℚ
  | "Teff" => Teff
  | "logTeff" => logTeff
  | "logL" => logL
  | "Mbol" => Mbol
  | "R" => Rsun
  | "Mv" => Mv
  | "BV" => BV
  | "M" => Msun
  | _ => []

/-- The iteration order of the keys of `convers` (Python dictionaries preserve
insertion order, src/mamajek.py line 175). -/
def converKeys : List String :=
  ["Teff", "logTeff", "logL", "Mbol", "R", "Mv", "BV", "M"]

/-- Python list slicing `l[a:b]` with possibly negative bounds: a negative
index is shifted by the length, then both bounds are clamped to `[0, len]`,
and the elements from the lower bound up to (excluding) the upper bound are
returned. -/
def pySlice {α : Type} (l : List α) (a b : ℤ) : List α :=
  let n : ℤ := l.length
  let norm : ℤ → ℤ := fun i =>
    if i < 0 then (if i + n < 0 then 0 else i + n) else (if i ≤ n then i else n)
  (l.take (norm b).toNat).drop (norm a).toNat

/-- The spectral-type bracket printed for a star (src/mamajek.py line 233):
`sptype[idx-1 : idx+1]`, where `idx` is the index left over from the last
`interpolate_in` call of the star loop.  Every call of the loop returns the
same index, namely the nearest index of the query value in the given column,
so the slice is taken at `argminAbs v (convers g)`. -/
def spTypeBracket (g : String) (v : ℚ) : List String :=
  pySlice sptype ((argminAbs v (convers g) : ℤ) - 1) ((argminAbs v (convers g) : ℤ) + 1)

/-- The interstellar extinction `Av = 3.2 * args.Ebv` (src/mamajek.py
line 205). -/
def AvOf (Ebv : ℚ) : ℚ := 3.2 * Ebv

/-- The absolute magnitude entering the apparent-magnitude formula for a star
(src/mamajek.py lines 224-227): the input value itself when the given
quantity is `Mv`, otherwise the value interpolated against the `Mv` column. -/
def MvUsed (g : String) (v : ℚ) : ℚ :=
  if g = "Mv" then v else ((interpolate_in (convers g) Mv v).1).getD 0

/-- The interpolated log-luminosity stored into `Lbin[i]` (src/mamajek.py
line 232): the first component of `interpolate_in(convers[args.given],
convers["logL"], values[i])`.  Note that the code stores the interpolated
`logL` value itself; it never exponentiates it. -/
def LbinOf (g : String) (v : ℚ) : ℚ :=
  ((interpolate_in (convers g) logL v).1).getD 0

/-- The apparent magnitude of one star, `mv = Mv - 5 + 5*log10(d) + Av`
(src/mamajek.py line 228); this is the value stored into `mbin[i]`
(line 231). -/
noncomputable def mvStar (g : String) (v : ℚ) (d Av : ℝ) : ℝ :=
  (MvUsed g v : ℝ) - 5 + 5 * Real.logb 10 d + Av

/-- The composite binary magnitude computed by the code (src/mamajek.py
line 236): `Vbin = mbin[1] - 2.5*log10((Lbin[0] + Lbin[1]) / Lbin[1])`, for
the run with given quantity `g`, first two input values `v1, v2`, distance
`d` and extinction `Av`. -/
noncomputable def VbinCode (g : String) (v1 v2 : ℚ) (d Av : ℝ) : ℝ :=
  mvStar g v2 d Av -
    2.5 * Real.logb 10 (((LbinOf g v1 : ℝ) + (LbinOf g v2 : ℝ)) / (LbinOf g v2 : ℝ))

/-- Modelled from the spec (section 4.3): the claimed composite magnitude
`V_binary = V_2 - 2.5*log10((L_1 + L_2) / L_2)` with `L_i = 10 ^ logL_i`,
where `logL_i` is the log-luminosity interpolated for star `i` and `V_2` the
second star's computed apparent magnitude. -/
noncomputable def VbinClaim (g : String) (v1 v2 : ℚ) (d Av : ℝ) : ℝ :=
  mvStar g v2 d Av -
    2.5 * Real.logb 10
      (((10 : ℝ) ^ ((LbinOf g v1 : ℚ) : ℝ) + (10 : ℝ) ^ ((LbinOf g v2 : ℚ) : ℝ)) /
        (10 : ℝ) ^ ((LbinOf g v2 : ℚ) : ℝ))

/-- The command-line arguments after parsing (src/mamajek.py lines 177-185).
Argument parsing itself is an external collaborator (spec section 1); `given`
and `val` are `none` when the corresponding option is absent, and `val`
carries the already split and parsed numeric values. -/
structure Args where
  given : Option String
  val : Option (List ℚ)
  atdist : Option ℚ
  mas : Bool
  Ebv : ℚ
  binary : Bool

/-- How a run of the program can terminate fatally during input validation:
  - `usageExit c`: the explicit `sys.exit(1)` after the "No parameters
    specified" message (src/mamajek.py lines 187-189);
  - `attrError`: the uncaught `AttributeError` raised by `args.val.find(",")`
    on line 194 when `--val` is absent, right after the "No values specified"
    message of line 192 is printed (the `if` on lines 191-192 prints but does
    not exit). -/
inductive Fatal
  | usageExit (code : ℕ)
  | attrError

/-- The process exit status of each fatal outcome; an uncaught Python
exception terminates the interpreter with status 1. -/
def exitCodeOf : Fatal → ℕ
  | .usageExit c => c
  | .attrError => 1

/-- The interpolation results printed for one star (src/mamajek.py lines
218-222): one `interpolate_in` result per key of `convers` other than the
given quantity. -/
def starResults (g : String) (v : ℚ) : List (String × (Option ℚ × ℕ)) :=
  (converKeys.filter (fun k => k ≠ g)).map
    (fun k => (k, interpolate_in (convers g) (convers k) v))

/-- The validation prefix of `__main__` followed by the per-star
interpolation loop (src/mamajek.py lines 187-233): a missing `--given` exits
with status 1 before anything else; a missing `--val` prints the invalid-
input message and then dies with the `AttributeError` of line 194, before any
interpolation is performed; otherwise every value is processed in order. -/
def runMain (a : Args) : Except Fatal (List (List (String × (Option ℚ × ℕ)))) :=
  match a.given with
  | none => Except.error (Fatal.usageExit 1)
  | some g =>
    match a.val with
    | none => Except.error Fatal.attrError
    | some vs => Except.ok (vs.map (starResults g))

theorem qabs_eq_abs (a : ℚ) : qabs a = |a| := by
  unfold qabs
  rcases lt_or_le a 0 with h | h
  · rw [if_pos h, abs_of_neg h]
  · rw [if_neg (not_lt.mpr h), abs_of_nonneg h]

theorem qmin_eq_min (a b : ℚ) : qmin a b = min a b := by
  unfold qmin
  split_ifs with h
  · exact (min_eq_left h).symm
  · exact (min_eq_right (le_of_not_le h)).symm

theorem minAbs_le (q : ℚ) :
    ∀ (xs : List ℚ) (j : ℕ), j < xs.length → minAbs q xs ≤ qabs (q - xs.getD j 0) := by
  intro xs
  induction xs with
  | nil => intro j hj; simp at hj
  | cons x t ih =>
    intro j hj
    cases t with
    | nil =>
      have hj0 : j = 0 := by simpa using Nat.lt_one_iff.mp (by simpa using hj)
      subst hj0
      simp [minAbs]
    | cons y t2 =>
      cases j with
      | zero =>
        rw [List.getD_cons_zero]
        calc minAbs q (x :: y :: t2) = qmin (qabs (q - x)) (minAbs q (y :: t2)) := rfl
          _ ≤ qabs (q - x) := by rw [qmin_eq_min]; exact min_le_left _ _
      | succ j2 =>
        have hj2 : j2 < (y :: t2).length := Nat.lt_of_succ_lt_succ (by simpa using hj)
        rw [List.getD_cons_succ]
        calc minAbs q (x :: y :: t2) = qmin (qabs (q - x)) (minAbs q (y :: t2)) := rfl
          _ ≤ minAbs q (y :: t2) := by rw [qmin_eq_min]; exact min_le_right _ _
          _ ≤ qabs (q - (y :: t2).getD j2 0) := ih j2 hj2

theorem argminAbs_lt_length (q : ℚ) :
    ∀ (xs : List ℚ), xs ≠ [] → argminAbs q xs < xs.length := by
  intro xs
  induction xs with
  | nil => intro h; exact absurd rfl h
  | cons x t ih =>
    intro _
    cases t with
    | nil => simp [argminAbs]
    | cons y t2 =>
      by_cases h : minAbs q (y :: t2) < qabs (q - x)
      · have ht := ih (by simp)
        simp only [argminAbs, if_pos h, List.length_cons]
        exact Nat.succ_lt_succ ht
      · simp [argminAbs, if_neg h]

theorem qabs_argminAbs (q : ℚ) :
    ∀ (xs : List ℚ), xs ≠ [] → qabs (q - xs.getD (argminAbs q xs) 0) = minAbs q xs := by
  intro xs
  induction xs with
  | nil => intro h; exact absurd rfl h
  | cons x t ih =>
    intro _
    cases t with
    | nil => simp [argminAbs, minAbs]
    | cons y t2 =>
      by_cases h : minAbs q (y :: t2) < qabs (q - x)
      · simp only [argminAbs, if_pos h, List.getD_cons_succ]
        rw [ih (by simp)]
        show minAbs q (y :: t2) = qmin (qabs (q - x)) (minAbs q (y :: t2))
        rw [qmin_eq_min, min_eq_right (le_of_lt h)]
      · simp only [argminAbs, if_neg h, List.getD_cons_zero]
        show qabs (q - x) = qmin (qabs (q - x)) (minAbs q (y :: t2))
        rw [qmin_eq_min, min_eq_left (not_lt.mp h)]

theorem argminAbs_first (q : ℚ) :
    ∀ (xs : List ℚ) (j : ℕ), j < argminAbs q xs → minAbs q xs < qabs (q - xs.getD j 0) := by
  intro xs
  induction xs with
  | nil => intro j hj; simp [argminAbs] at hj
  | cons x t ih =>
    intro j hj
    cases t with
    | nil => simp [argminAbs] at hj
    | cons y t2 =>
      by_cases h : minAbs q (y :: t2) < qabs (q - x)
      · simp only [argminAbs, if_pos h] at hj
        have hmin : minAbs q (x :: y :: t2) = minAbs q (y :: t2) := by
          show qmin (qabs (q - x)) (minAbs q (y :: t2)) = minAbs q (y :: t2)
          rw [qmin_eq_min, min_eq_right (le_of_lt h)]
        cases j with
        | zero => rw [List.getD_cons_zero, hmin]; exact h
        | succ j2 =>
          rw [List.getD_cons_succ, hmin]
          exact ih j2 (Nat.lt_of_succ_lt_succ hj)
      · simp only [argminAbs, if_neg h] at hj
        exact absurd hj (Nat.not_lt_zero j)

/-- Claim C2, counterexample: the claim asserts a common length of 82 rows,
but the shipped `Teff` column has 86 entries, not 82. -/
theorem C2_counterexample : Teff.length ≠ 82 := by decide

/-- Claim C2, amended: all nine parallel arrays of the reference table (the
spectral-type labels and the eight quantity columns) have exactly the same
length, and that common length is 86 rows. -/
theorem C2_amended :
    sptype.length = 86 ∧ Teff.length = 86 ∧ logTeff.length = 86 ∧ logL.length = 86 ∧
      Mbol.length = 86 ∧ Rsun.length = 86 ∧ Mv.length = 86 ∧ BV.length = 86 ∧
      Msun.length = 86 := by decide

/-- Claim C3, counterexample: the claim asserts that the nearest index never
exceeds `len(source_array) - margin`; but querying the `Teff` column at 2380
(its last entry) yields nearest index 85, which exceeds `86 - 5 = 81`, so the
third window-selection branch is executed. -/
theorem C3_counterexample :
    argminAbs 2380 Teff = 85 ∧ ¬((argminAbs 2380 Teff : ℤ) ≤ (Teff.length : ℤ) - 5) := by
  decide

/-- Claim C3, amended: the third window-selection branch is reachable on the
shipped table: for query value 2380 on the `Teff` column the nearest index 85
fails both preceding guards and satisfies `idx > len - margin`, the window is
the end-of-table range `[80..85]`, and the interpolation succeeds on it. -/
theorem C3_amended :
    (Teff.length : ℤ) - 5 < (argminAbs 2380 Teff : ℤ) ∧
      ¬(5 ≤ argminAbs 2380 Teff ∧ (argminAbs 2380 Teff : ℤ) ≤ (Teff.length : ℤ) - 5) ∧
      ¬(argminAbs 2380 Teff < 5) ∧
      windowIdx Teff.length (argminAbs 2380 Teff) = [80, 81, 82, 83, 84, 85] ∧
      (interpolate_in Teff logL 2380).1.isSome = true := by
  decide

/-- Claim C4, counterexample: for the query 44000 on the `Teff` column the
nearest index is 0, and the claim asserts the window is then the consecutive
range `[0, 1, 2, 3, 4, 5]` (`nearest_index + margin + 1` points, none
omitted); but `np.linspace(0, 5, 5, dtype=int)` produces `[0, 1, 2, 3, 5]`,
omitting index 4. -/
theorem C4_counterexample :
    argminAbs 44000 Teff = 0 ∧ argminAbs 44000 Teff < 5 ∧
      windowIdx Teff.length (argminAbs 44000 Teff) ≠ [0, 1, 2, 3, 4, 5] := by
  decide

/-- Claim C4, amended: whenever `nearest_index < margin` (margin = 5), the
window consists of `nearest_index + margin` entries: the consecutive indices
`0` to `nearest_index + margin - 2` followed by `nearest_index + margin`,
with index `nearest_index + margin - 1` omitted (an artifact of
`np.linspace(0, idx+margin, idx+margin, dtype=int)` requesting one point
fewer than the span and truncating to integers). -/
theorem C4_amended (n idx : ℕ) (h : idx < 5) :
    windowIdx n idx = List.range (idx + 4) ++ [idx + 5] := by
  have h1 : ¬(5 ≤ idx ∧ (idx : ℤ) ≤ (n : ℤ) - 5) := by
    rintro ⟨h5, -⟩
    omega
  unfold windowIdx
  rw [if_neg h1, if_pos h]
  interval_cases idx <;> decide

/-- Claim C4, witness for the amended statement at `idx = 0` on the shipped
table length 86. -/
theorem C4_witness : (0 : ℕ) < 5 ∧ windowIdx 86 0 = List.range 4 ++ [5] :=
  ⟨by decide, C4_amended 86 0 (by decide)⟩

/-- Claim C5, counterexample: at query value 44000 on source column `Teff`
and target column `logL`, the value returned by `interpolate_in` (which uses
`scipy.interpolate.CubicSpline` with its default not-a-knot boundary
condition) differs from the evaluation of the natural cubic spline (vanishing
second derivatives at the end knots) through the same sorted window points. -/
theorem C5_counterexample :
    (interpolate_in Teff logL 44000).1 ≠ naturalSplineValue Teff logL 44000 := by
  decide

/-- Claim C5, amended: the interpolated value returned by
`interpolate(source_array, target_array, query_value)` equals the evaluation
at `query_value` of the not-a-knot cubic spline (the `scipy` default
boundary condition, not the natural one) fitted through the sorted
(source, target) pairs of the selected window. -/
theorem C5_amended (source_array target_array : List ℚ) (query_value : ℚ) :
    (interpolate_in source_array target_array query_value).1 =
      notAKnotSplineValue source_array target_array query_value := rfl

/-- Claim C9: the index component of the result of `interpolate_in` does not
depend on the target array: for one source array and query value and any two
target arrays of the same length, the returned nearest index is identical. -/
theorem C9_index_independent (par_prim t1 t2 : List ℚ) (valor : ℚ)
    (_h : t1.length = t2.length) :
    (interpolate_in par_prim t1 valor).2 = (interpolate_in par_prim t2 valor).2 := rfl

/-- Claim C9, witness: the same nearest index is returned when interpolating
the query 13000 on `Teff` against `logL` and against `Msun`. -/
theorem C9_witness :
    logL.length = Msun.length ∧
      (interpolate_in Teff logL 13000).2 = (interpolate_in Teff Msun 13000).2 :=
  ⟨by decide, C9_index_independent Teff logL Msun 13000 (by decide)⟩

/-- Claim C10: when the nearest row index for a query is 0, the spectral-type
bracket produced by `sptype[nearest_index-1 : nearest_index+1]` is the empty
list: the Python slice `sptype[-1:1]` starts at the last row and ends before
index 1, hence selects nothing. -/
theorem C10_empty_bracket (g : String) (v : ℚ) (h : argminAbs v (convers g) = 0) :
    spTypeBracket g v = [] := by
  unfold spTypeBracket
  rw [h]
  decide

/-- Claim C10, witness: querying the `Teff` column at its first value 44900
gives nearest index 0 and an empty spectral-type bracket. -/
theorem C10_witness :
    argminAbs 44900 (convers "Teff") = 0 ∧ spTypeBracket "Teff" 44900 = [] :=
  ⟨by decide, C10_empty_bracket "Teff" 44900 (by decide)⟩

/-- Claim C7: when a quantity name is given but no values are given
(`--val` absent), the run terminates fatally before any interpolation: the
"No values specified" message is printed and the subsequent
`args.val.find(",")` on line 194 raises an uncaught `AttributeError`, ending
the process with exit status 1 (nonzero) with no star ever processed. -/
theorem C7_no_values_fatal (a : Args) (g : String)
    (h1 : a.given = some g) (h2 : a.val = none) :
    runMain a = Except.error Fatal.attrError ∧ exitCodeOf Fatal.attrError ≠ 0 := by
  refine ⟨?_, by decide⟩
  unfold runMain
  rw [h1, h2]

/-- Claim C7, witness: the concrete argument vector `--given=Teff` with no
`--val` terminates with the fatal `AttributeError` outcome. -/
theorem C7_witness :
    (Args.mk (some "Teff") none none false 0 false).given = some "Teff" ∧
      (Args.mk (some "Teff") none none false 0 false).val = none ∧
      runMain (Args.mk (some "Teff") none none false 0 false) =
        Except.error Fatal.attrError ∧
      exitCodeOf Fatal.attrError ≠ 0 := by
  refine ⟨rfl, rfl, ?_, ?_⟩
  · exact (C7_no_values_fatal (Args.mk (some "Teff") none none false 0 false) "Teff" rfl rfl).1
  · exact (C7_no_values_fatal (Args.mk (some "Teff") none none false 0 false) "Teff" rfl rfl).2

/-- Claim C6: for every source array and query value, the index returned by
`interpolate_in` is the lowest index minimizing the absolute difference to
the query (ties broken by first occurrence), and it is returned exactly as
computed in step 1 (it equals `argminAbs`, the embedding of line 161, not a
value re-derived from the sorted or truncated window). -/
theorem C6_nearest_index (par_prim par_seg : List ℚ) (valor : ℚ) (h : par_prim ≠ []) :
    (interpolate_in par_prim par_seg valor).2 = argminAbs valor par_prim ∧
      argminAbs valor par_prim < par_prim.length ∧
      (∀ j, j < par_prim.length →
        |valor - par_prim.getD (argminAbs valor par_prim) 0| ≤
          |valor - par_prim.getD j 0|) ∧
      (∀ j, j < argminAbs valor par_prim →
        |valor - par_prim.getD (argminAbs valor par_prim) 0| <
          |valor - par_prim.getD j 0|) := by
  refine ⟨rfl, argminAbs_lt_length valor par_prim h, ?_, ?_⟩
  · intro j hj
    rw [← qabs_eq_abs, ← qabs_eq_abs, qabs_argminAbs valor par_prim h]
    exact minAbs_le valor par_prim j hj
  · intro j hj
    rw [← qabs_eq_abs, ← qabs_eq_abs, qabs_argminAbs valor par_prim h]
    exact argminAbs_first valor par_prim j hj

/-- Claim C6, witness: the statement instantiated at source `Teff`, target
`logL` and query 13000 (nearest row 23, the 12300 K row). -/
theorem C6_witness :
    Teff ≠ [] ∧
      ((interpolate_in Teff logL 13000).2 = argminAbs 13000 Teff ∧
        argminAbs 13000 Teff < Teff.length ∧
        (∀ j, j < Teff.length →
          |(13000 : ℚ) - Teff.getD (argminAbs 13000 Teff) 0| ≤
            |(13000 : ℚ) - Teff.getD j 0|) ∧
        (∀ j, j < argminAbs 13000 Teff →
          |(13000 : ℚ) - Teff.getD (argminAbs 13000 Teff) 0| <
            |(13000 : ℚ) - Teff.getD j 0|)) :=
  ⟨by decide, C6_nearest_index Teff logL 13000 (by decide)⟩

/-- All indices of the window selected for query `q` on source column `src`
are within the bounds of the column. -/
def windowInBounds (src : List ℚ) (q : ℚ) : Bool :=
  (windowIdx src.length (argminAbs q src)).all (fun i => decide (i < src.length))

/-- The window-boundary property of one source column: at the first tabulated
value the nearest index satisfies the truncated start-of-table guard
(`idx < margin`) and the window is in bounds; at the last tabulated value the
nearest index satisfies the truncated end-of-table guard
(`idx > len - margin`) and the window is in bounds. -/
def endpointBranchesOK (src : List ℚ) : Bool :=
  windowInBounds src (src.headD 0) &&
    decide (argminAbs (src.headD 0) src < 5) &&
    windowInBounds src (src.getLastD 0) &&
    decide ((src.length : ℤ) - 5 < (argminAbs (src.getLastD 0) src : ℤ))

/-- Interpolation at both the first and the last tabulated value of `src`
succeeds (no exception of any kind). -/
def endpointCompletes (src tgt : List ℚ) : Bool :=
  (interpolate_in src tgt (src.headD 0)).1.isSome &&
    (interpolate_in src tgt (src.getLastD 0)).1.isSome

/-- Claim C8, counterexample: the claim asserts that querying every source
column at its very last tabulated value completes; but the last entry of the
mass column `M` is 0.08, whose end-of-table window (rows 79-85) contains the
duplicate source values 0.09 (four times) and 0.08 (twice), so the
`CubicSpline` constructor rejects the window with a `ValueError` (an
exception, though indeed not an index error) and the call does not
complete. -/
theorem C8_counterexample :
    Msun.getLastD 0 = 0.08 ∧ (interpolate_in Msun Teff 0.08).1 = none := by decide

/-- Claim C8, amended: for every source column, querying at the very first
and at the very last tabulated value performs no out-of-bounds index access
and selects the truncated start-of-table (respectively end-of-table) window
branch; the calls complete for every column except `R` and `M` at their last
value, where the window contains duplicate source entries and the spline
constructor rejects it — with a `ValueError`, never an index error. -/
theorem C8_amended :
    endpointBranchesOK Teff = true ∧ endpointBranchesOK logTeff = true ∧
      endpointBranchesOK logL = true ∧ endpointBranchesOK Mbol = true ∧
      endpointBranchesOK Rsun = true ∧ endpointBranchesOK Mv = true ∧
      endpointBranchesOK BV = true ∧ endpointBranchesOK Msun = true ∧
      endpointCompletes Teff Teff = true ∧ endpointCompletes logTeff logTeff = true ∧
      endpointCompletes logL logL = true ∧ endpointCompletes Mbol Mbol = true ∧
      endpointCompletes Mv Mv = true ∧ endpointCompletes BV BV = true ∧
      (interpolate_in Rsun Rsun (Rsun.headD 0)).1.isSome = true ∧
      (interpolate_in Msun Msun (Msun.headD 0)).1.isSome = true ∧
      (interpolate_in Rsun Rsun (Rsun.getLastD 0)).1 = none ∧
      (interpolate_in Msun Msun (Msun.getLastD 0)).1 = none := by
  decide

/-- Claim C1, counterexample: for the binary run with given quantity `Teff`,
input values 44000 and 40000, distance 100 pc and no reddening, the composite
magnitude computed by the code differs from the one claimed.  The code stores
the raw interpolated `logL` values in `Lbin` and divides their sum by
`Lbin[1]`, whereas the claim exponentiates them first; since
`l1/l2 < 3/2 < 10^(1/4) ≤ 10^(l1-l2)`, the two logarithm arguments differ,
hence so do the magnitudes. -/
theorem C1_counterexample :
    VbinCode "Teff" 44000 40000 100 0 ≠ VbinClaim "Teff" 44000 40000 100 0 := by
  have ha : (0 : ℚ) < LbinOf "Teff" 44000 := by decide
  have hb : (0 : ℚ) < LbinOf "Teff" 40000 := by decide
  have hab : LbinOf "Teff" 44000 / LbinOf "Teff" 40000 < 3 / 2 := by decide
  have hd : (1 / 4 : ℚ) ≤ LbinOf "Teff" 44000 - LbinOf "Teff" 40000 := by decide
  have haR : (0 : ℝ) < ((LbinOf "Teff" 44000 : ℚ) : ℝ) := by exact_mod_cast ha
  have hbR : (0 : ℝ) < ((LbinOf "Teff" 40000 : ℚ) : ℝ) := by exact_mod_cast hb
  have hbne : ((LbinOf "Teff" 40000 : ℚ) : ℝ) ≠ 0 := ne_of_gt hbR
  have hpow_ne : (10 : ℝ) ^ ((LbinOf "Teff" 40000 : ℚ) : ℝ) ≠ 0 :=
    (Real.rpow_pos_of_pos (by norm_num) _).ne'
  have hApos :
      0 < (((LbinOf "Teff" 44000 : ℚ) : ℝ) + ((LbinOf "Teff" 40000 : ℚ) : ℝ)) /
          ((LbinOf "Teff" 40000 : ℚ) : ℝ) :=
    div_pos (add_pos haR hbR) hbR
  have hquarter : (3 / 2 : ℝ) < (10 : ℝ) ^ ((1 : ℝ) / 4) := by
    by_contra hc
    push_neg at hc
    have hnn : (0 : ℝ) ≤ (10 : ℝ) ^ ((1 : ℝ) / 4) := Real.rpow_nonneg (by norm_num) _
    have hle := pow_le_pow_left₀ hnn hc 4
    rw [← Real.rpow_natCast ((10 : ℝ) ^ ((1 : ℝ) / 4)) 4,
      ← Real.rpow_mul (by norm_num : (0 : ℝ) ≤ 10)] at hle
    norm_num at hle
  have hAB :
      (((LbinOf "Teff" 44000 : ℚ) : ℝ) + ((LbinOf "Teff" 40000 : ℚ) : ℝ)) /
          ((LbinOf "Teff" 40000 : ℚ) : ℝ) <
        ((10 : ℝ) ^ ((LbinOf "Teff" 44000 : ℚ) : ℝ) +
            (10 : ℝ) ^ ((LbinOf "Teff" 40000 : ℚ) : ℝ)) /
          (10 : ℝ) ^ ((LbinOf "Teff" 40000 : ℚ) : ℝ) := by
    have h1 :
        (((LbinOf "Teff" 44000 : ℚ) : ℝ) + ((LbinOf "Teff" 40000 : ℚ) : ℝ)) /
            ((LbinOf "Teff" 40000 : ℚ) : ℝ) =
          ((LbinOf "Teff" 44000 : ℚ) : ℝ) / ((LbinOf "Teff" 40000 : ℚ) : ℝ) + 1 := by
      rw [add_div, div_self hbne]
    have h2 :
        ((10 : ℝ) ^ ((LbinOf "Teff" 44000 : ℚ) : ℝ) +
              (10 : ℝ) ^ ((LbinOf "Teff" 40000 : ℚ) : ℝ)) /
            (10 : ℝ) ^ ((LbinOf "Teff" 40000 : ℚ) : ℝ) =
          (10 : ℝ) ^ (((LbinOf "Teff" 44000 : ℚ) : ℝ) - ((LbinOf "Teff" 40000 : ℚ) : ℝ)) + 1 := by
      rw [add_div, div_self hpow_ne, Real.rpow_sub (by norm_num : (0 : ℝ) < 10)]
    rw [h1, h2]
    have h3 :
        ((LbinOf "Teff" 44000 : ℚ) : ℝ) / ((LbinOf "Teff" 40000 : ℚ) : ℝ) < 3 / 2 := by
      have h3' := (Rat.cast_lt (K := ℝ)).mpr hab
      push_cast at h3'
      exact h3'
    have h4 :
        ((1 : ℝ) / 4) ≤ ((LbinOf "Teff" 44000 : ℚ) : ℝ) - ((LbinOf "Teff" 40000 : ℚ) : ℝ) := by
      have h4' := (Rat.cast_le (K := ℝ)).mpr hd
      push_cast at h4'
      exact h4'
    have h5 :
        (10 : ℝ) ^ ((1 : ℝ) / 4) ≤
          (10 : ℝ) ^ (((LbinOf "Teff" 44000 : ℚ) : ℝ) - ((LbinOf "Teff" 40000 : ℚ) : ℝ)) :=
      (Real.rpow_le_rpow_left_iff (by norm_num : (1 : ℝ) < 10)).mpr h4
    have h6 := lt_of_lt_of_le (lt_trans h3 hquarter) h5
    linarith
  have hlog := Real.logb_lt_logb (b := 10) (by norm_num : (1 : ℝ) < 10) hApos hAB
  intro h
  unfold VbinCode VbinClaim at h
  rw [sub_right_inj] at h
  have h7 := mul_left_cancel₀ (show (2.5 : ℝ) ≠ 0 by norm_num) h
  exact hlog.ne h7

/-- Claim C1, amended: in binary mode with at least two input values, the
composite apparent magnitude equals `V_2 - 2.5*log10((l_1 + l_2) / l_2)`
where `l_i` is the value interpolated against the `logL` column for star `i`
used directly (the code never exponentiates it to a luminosity), and `V_2` is
the second star's computed apparent magnitude. -/
theorem C1_amended (g : String) (v1 v2 : ℚ) (d Av : ℝ) :
    VbinCode g v1 v2 d Av =
      mvStar g v2 d Av -
        2.5 * Real.logb 10
          (((LbinOf g v1 + LbinOf g v2 : ℚ) : ℝ) / ((LbinOf g v2 : ℚ) : ℝ)) := by
  unfold VbinCode
  push_cast
  ring_nf
